import Mathlib

/-!
Verification of `patterns.py`: the event-dispatch component
(`Publisher`, `Command`, `CommandFactory`) and the tabular file manager
(`FileManager` with its nested uploader and downloader).

Python dicts are modelled as association lists, widgets and handler
callables as opaque identifiers, and handler invocation as an explicit
log of `(handler, argument)` pairs produced by a command call.
-/

/-- Values manipulated by the dispatcher: ipywidgets `Widget` instances
(identified by an opaque id), structured event records (Python dicts with
an `owner` and a `type` entry), and plain strings and numbers standing in
for arbitrary non-widget, non-dict Python values. -/
inductive Val : Type where
  | widget (id : Nat)
  | record (owner : Val) (etype : String)
  | str (s : String)
  | num (n : Int)
deriving DecidableEq

/-- `isinstance(x, Widget)` in the source. -/
def Val.isWidget : Val → Bool
  | .widget _ => true
  | _ => false

/-- `isinstance(x, dict)` in the source: structured event records are the
only dicts fed to commands. -/
def Val.isRecord : Val → Bool
  | .record _ _ => true
  | _ => false

/-- A `Command` wraps exactly one handler callable (modelled by an opaque
id).  The two variants are `ClickCommand` and `NotifyCommand`. -/
inductive Command : Type where
  | click (handler : Nat)
  | notify (handler : Nat)
deriving DecidableEq

/-- Invoking a command on a target.  The result is the list of handler
invocations performed, as `(handler, argument)` pairs.
`ClickCommand.__call__` forwards only when the target is a `Widget`;
`NotifyCommand.__call__` only when it is a dict; otherwise nothing is
forwarded and no error is raised (the function is total). -/
def Command.call : Command → Val → List (Nat × Val)
  | .click h, v => if v.isWidget then [(h, v)] else []
  | .notify h, v => if v.isRecord then [(h, v)] else []

/-- `CommandFactory.construct`: `"click"` selects `ClickCommand`, any other
event type selects `NotifyCommand`. -/
def CommandFactory.construct (event_type : String) (handler : Nat) : Command :=
  if event_type = "click" then .click handler else .notify handler

/-- Python dict lookup `d[k]` on an association list (`none` models the
`KeyError` raised when the key is absent). -/
def alistGet {K V : Type} [DecidableEq K] (l : List (K × V)) (k : K) : Option V :=
  (l.find? (fun e => decide (e.1 = k))).map Prod.snd

/-- Python `d.update({k: v})`: the key is (re)bound to `v`.  Modelled by
removing any existing entry for `k` and appending the new one; a Python
dict never holds duplicate keys, and entry order is not observable in this
program. -/
def alistUpd {K V : Type} [DecidableEq K] (l : List (K × V)) (k : K) (v : V) : List (K × V) :=
  l.filter (fun e => decide (e.1 ≠ k)) ++ [(k, v)]

/-- Python `d.pop(k)`: `none` models the `KeyError` raised when `k` is
absent. -/
def alistPop {K V : Type} [DecidableEq K] (l : List (K × V)) (k : K) :
    Option (List (K × V)) :=
  if l.any (fun e => decide (e.1 = k)) then
    some (l.filter (fun e => decide (e.1 ≠ k)))
  else none

/-- Errors surfaced to callers: `keyNotFound` models Python's `KeyError`,
`parseError` a pandas parse failure on malformed content. -/
inductive PyErr : Type where
  | keyNotFound
  | parseError
deriving DecidableEq

/-- `Publisher`: owns the `observers` dict mapping `(source, kind)` keys to
bound commands. -/
structure Publisher : Type where
  observers : List ((Val × String) × Command)
deriving DecidableEq

/-- `Publisher.__init__`: an empty observers dict. -/
def Publisher.empty : Publisher := ⟨[]⟩

def Publisher.lookupKey (p : Publisher) (k : Val × String) : Option Command :=
  alistGet p.observers k

/-- The key `Publisher.__call__` looks up: `(event['owner'], event['type'])`
for a dict event, `(event, 'click')` for any other event. -/
def dispatchKey : Val → Val × String
  | .record o ty => (o, ty)
  | v => (v, "click")

/-- `Publisher.__call__` (dispatch): looks up the event's key and invokes
the bound command with the event itself; a missing key raises `KeyError`,
which is not caught internally. -/
def Publisher.dispatch (p : Publisher) (event : Val) : Except PyErr (List (Nat × Val)) :=
  match p.lookupKey (dispatchKey event) with
  | some cmd => .ok (cmd.call event)
  | none => .error .keyNotFound

/-- `Publisher.register(subscriber)` with `subscriber = (source, handler,
kind)`: builds the command via the factory and updates the observers dict
at key `(source, kind)`.  Total: registration never fails. -/
def Publisher.register (p : Publisher) (subscriber : Val × Nat × String) : Publisher :=
  ⟨alistUpd p.observers (subscriber.1, subscriber.2.2)
    (CommandFactory.construct subscriber.2.2 subscriber.2.1)⟩

/-- `Publisher.unregister(observer)`: pops the key `(observer[0],
observer[2])`; raises `KeyError` when it is absent. -/
def Publisher.unregister (p : Publisher) (observer : Val × Nat × String) :
    Except PyErr Publisher :=
  match alistPop p.observers (observer.1, observer.2.2) with
  | some l => .ok ⟨l⟩
  | none => .error .keyNotFound

/-- The observers dict holds no duplicate keys (true of every Python dict;
an invariant of every reachable `Publisher` state). -/
def Publisher.nodupKeys (p : Publisher) : Prop :=
  (p.observers.map Prod.fst).Nodup

/-- An event matching a registration `(source, kind)`: the bare source for
click bindings, a record with that owner and type for any other kind. -/
def matchingEvent (source : Val) (kind : String) (ev : Val) : Prop :=
  (kind = "click" ∧ ev = source) ∨ (kind ≠ "click" ∧ ev = Val.record source kind)

/-- Recognized tabular file formats. -/
inductive Fmt : Type where
  | json
  | csv
deriving DecidableEq

/-- A pandas `DataFrame`: an in-memory table, modelled as named columns of
cell values. -/
structure Table : Type where
  cols : List (String × List String)
deriving DecidableEq

/-- Raw file content: either arbitrary bytes (as characters) or — modelled —
the output of a pandas serializer on a table.  pandas `to_json` and
`to_csv` never produce empty output, so only `raw []` is falsy. -/
inductive Content : Type where
  | raw (bytes : List Char)
  | ser (fmt : Fmt) (t : Table)
deriving DecidableEq

/-- Python truthiness of the content bytes (`if content:`). -/
def Content.isEmpty : Content → Bool
  | .raw b => b.isEmpty
  | .ser _ _ => false

/-- Model of `pandas.read_json`: inverts `to_json` output and fails with a
`ParseError` on anything else (parsing of arbitrary raw bytes is external
pandas behaviour, modelled here as a parse failure). -/
def pdReadJson : Content → Except PyErr Table
  | .ser .json t => .ok t
  | _ => .error .parseError

/-- Model of `pandas.read_csv`: inverts `to_csv` output, failing otherwise. -/
def pdReadCsv : Content → Except PyErr Table
  | .ser .csv t => .ok t
  | _ => .error .parseError

/-- The file system: files (path to content) and the set of directories
created so far. -/
structure FS : Type where
  files : List (List Char × Content)
  dirs : List (List Char)
deriving DecidableEq

def FS.empty : FS := ⟨[], []⟩

def FS.read (fs : FS) (path : List Char) : Option Content :=
  alistGet fs.files path

def FS.write (fs : FS) (path : List Char) (c : Content) : FS :=
  ⟨alistUpd fs.files path c, fs.dirs⟩

/-- `Path(filepath).parent` (simplified textual form: everything before the
last '/', or "." when there is none). -/
def parentDir (path : List Char) : List Char :=
  if '/' ∈ path then ((path.reverse.dropWhile (fun c => decide (c ≠ '/'))).drop 1).reverse
  else ['.']

/-- `filepath.parent.mkdir(parents=True, exist_ok=True)`. -/
def FS.mkdirParent (fs : FS) (path : List Char) : FS :=
  ⟨fs.files, parentDir path :: fs.dirs⟩

/-- Python `s.split(sep)`. -/
def splitOnChar (sep : Char) : List Char → List (List Char)
  | [] => [[]]
  | c :: rest =>
    match splitOnChar sep rest with
    | [] => [[c]]
    | hd :: tl => if c = sep then [] :: hd :: tl else (c :: hd) :: tl

/-- `pathlib.PurePath` parsing: the path's components are the non-empty,
non-"." pieces between slashes (so trailing slashes and "." components are
dropped). -/
def pathParts (path : List Char) : List (List Char) :=
  (splitOnChar '/' path).filter (fun comp => decide (comp ≠ [] ∧ comp ≠ ['.']))

/-- `Path(filepath).name`: the final component, "" when there is none. -/
def pathName (path : List Char) : List Char :=
  (pathParts path).getLast?.getD []

/-- `Path(filepath).suffix[1:]`: pathlib's suffix is `name[i+1:]` for the
last dot position `i` in the final component when `0 < i < len(name) - 1`,
and "" otherwise (no dot, a leading dot only, or a trailing dot). -/
def pathExt (path : List Char) : List Char :=
  let name := pathName path
  let b := (name.reverse.takeWhile (fun c => decide (c ≠ '.'))).reverse
  if b.length = name.length ∨ b.length = 0 ∨ b.length + 1 = name.length then [] else b

/-- Python `s.split('/')[-1]`: the substring after the final '/', the whole
string when there is no '/'. -/
def afterLastSlash (s : List Char) : List Char :=
  (s.reverse.takeWhile (fun c => decide (c ≠ '/'))).reverse

/-- The suffix as the spec words it: the substring after the final '.',
`none` when the string contains no '.'. -/
def afterLastDot (s : List Char) : Option (List Char) :=
  if '.' ∈ s then some ((s.reverse.takeWhile (fun c => decide (c ≠ '.'))).reverse)
  else none

/-- `FileManager.ALLOWED_FILE_TYPES = ['json', 'csv']`. -/
def FileManager.ALLOWED_FILE_TYPES : List (List Char) := ["json".toList, "csv".toList]

/-- The metadata record passed to `load_data`; `mtype` is its `'type'`
entry (a MIME-like string). -/
structure FileMeta : Type where
  mtype : List Char
deriving DecidableEq

/-- `FileManager.__FileUploader.__call__(content, file_ext)`: an empty
`DataFrame` unless there is content, in which case the content is parsed as
JSON or CSV (a parse failure propagates). -/
def FileManager.fileUploader (content : Content) (file_ext : List Char) :
    Except PyErr Table :=
  if content.isEmpty then .ok ⟨[]⟩
  else if file_ext = "json".toList then pdReadJson content
  else pdReadCsv content

/-- Model of `DataFrame.to_json(filepath)`: writes the JSON serialization
(default `orient='columns'` record layout) at `filepath` and returns
`None` — with a path argument pandas returns the text only when no path is
given. -/
def pdToJson (t : Table) (path : List Char) (fs : FS) : Option (List Char) × FS :=
  (none, fs.write path (.ser .json t))

/-- Model of `DataFrame.to_csv(filepath, index=False)`: writes delimiter-
separated text with a header row and no row-index column at `filepath` and
returns `None`. -/
def pdToCsv (t : Table) (path : List Char) (fs : FS) : Option (List Char) × FS :=
  (none, fs.write path (.ser .csv t))

/-- `FileManager.__FileDownloader.__call__(data_frame, filepath, file_ext)`:
creates the parent directory, then writes JSON or CSV. -/
def FileManager.fileDownloader (t : Table) (path : List Char) (file_ext : List Char)
    (fs : FS) : Option (List Char) × FS :=
  let fs1 := fs.mkdirParent path
  if file_ext = "json".toList then pdToJson t path fs1 else pdToCsv t path fs1

/-- `FileManager.load_data(content, metadata)`.  `.ok none` models Python's
implicit `None` return (silent decline); `.error` a propagated exception. -/
def FileManager.load_data (content : Content) (metadata : FileMeta) :
    Except PyErr (Option Table) :=
  if content.isEmpty then .ok (some ⟨[]⟩)
  else if afterLastSlash metadata.mtype ∈ FileManager.ALLOWED_FILE_TYPES then
    (FileManager.fileUploader content (afterLastSlash metadata.mtype)).map some
  else .ok none

/-- `FileManager.save_data(data_frame, filepath)`: the returned option is
the Python return value, the `FS` the resulting file system. -/
def FileManager.save_data (t : Table) (filepath : List Char) (fs : FS) :
    Option (List Char) × FS :=
  if pathExt filepath ∈ FileManager.ALLOWED_FILE_TYPES then
    FileManager.fileDownloader t filepath (pathExt filepath) fs
  else (none, fs)

deriving instance DecidableEq for Except

instance instDecMatchingEvent (source : Val) (kind : String) (ev : Val) :
    Decidable (matchingEvent source kind ev) := by
  unfold matchingEvent
  infer_instance

instance instDecNodupKeys (p : Publisher) : Decidable p.nodupKeys := by
  unfold Publisher.nodupKeys
  infer_instance

theorem alistGet_upd_self {K V : Type} [DecidableEq K] (l : List (K × V)) (k : K) (v : V) :
    alistGet (alistUpd l k v) k = some v := by
  induction l with
  | nil => simp [alistGet, alistUpd, List.find?]
  | cons e t ih =>
    by_cases h : e.1 = k
    · simpa [alistUpd, List.filter_cons, h] using ih
    · simp [alistGet, alistUpd, List.filter_cons, List.find?, h]

theorem alistGet_filter_self {K V : Type} [DecidableEq K] (l : List (K × V)) (k : K) :
    alistGet (l.filter (fun e => decide (e.1 ≠ k))) k = none := by
  induction l with
  | nil => simp [alistGet]
  | cons e t ih =>
    by_cases h : e.1 = k
    · simpa [List.filter_cons, h] using ih
    · simp [alistGet, List.filter_cons, List.find?, h]

theorem alistGet_none_iff {K V : Type} [DecidableEq K] (l : List (K × V)) (k : K) :
    alistGet l k = none ↔ l.any (fun e => decide (e.1 = k)) = false := by
  induction l with
  | nil => simp [alistGet]
  | cons e t ih =>
    by_cases h : e.1 = k
    · simp [alistGet, List.find?, h]
    · simp [alistGet, List.find?, h]

theorem alistGet_some_any {K V : Type} [DecidableEq K] (l : List (K × V)) (k : K) (v : V)
    (h : alistGet l k = some v) : l.any (fun e => decide (e.1 = k)) = true := by
  by_contra hc
  rw [Bool.not_eq_true] at hc
  rw [(alistGet_none_iff l k).mpr hc] at h
  exact Option.noConfusion h

theorem mapFst_filter_ne {K V : Type} [DecidableEq K] (l : List (K × V)) (k : K) :
    (l.filter (fun e => decide (e.1 ≠ k))).map Prod.fst =
      (l.map Prod.fst).filter (fun x => decide (x ≠ k)) := by
  induction l with
  | nil => simp
  | cons e t ih =>
    simp only [decide_not] at ih ⊢
    by_cases h : e.1 = k
    · simp [List.filter_cons, h, ih]
    · simp [List.filter_cons, h, ih]

theorem nodupKeys_alistUpd {K V : Type} [DecidableEq K] (l : List (K × V)) (k : K) (v : V)
    (h : (l.map Prod.fst).Nodup) : ((alistUpd l k v).map Prod.fst).Nodup := by
  unfold alistUpd
  rw [List.map_append, mapFst_filter_ne]
  refine List.Nodup.append (h.filter _) (List.nodup_singleton k) ?_
  intro x hx hk
  simp only [List.map_cons, List.map_nil, List.mem_singleton] at hk
  subst hk
  rcases List.mem_filter.mp hx with ⟨_, hne⟩
  simp at hne

/-- After registering `(source, handler, kind)` on any prior state,
dispatching a matching event invokes the wrapped handler exactly once with
the original event. -/
theorem register_dispatch_matching (p : Publisher) (src : Val) (handler : Nat)
    (kind : String) (ev : Val) (hw : src.isWidget = true) (hm : matchingEvent src kind ev) :
    (p.register (src, handler, kind)).dispatch ev = .ok [(handler, ev)] := by
  rcases hm with ⟨hk, he⟩ | ⟨hk, he⟩
  · cases src with
    | widget i =>
        subst hk
        subst he
        simp [Publisher.dispatch, Publisher.register, Publisher.lookupKey, dispatchKey,
          CommandFactory.construct, alistGet_upd_self, Command.call, Val.isWidget]
    | record o ty => simp [Val.isWidget] at hw
    | str s => simp [Val.isWidget] at hw
    | num n => simp [Val.isWidget] at hw
  · subst he
    simp [Publisher.dispatch, Publisher.register, Publisher.lookupKey, dispatchKey,
      CommandFactory.construct, hk, alistGet_upd_self, Command.call, Val.isRecord]

/-- C1 (counterexample): registering a click binding and dispatching the
matching structured record — owner and type equal to the registered source
and kind "click" — invokes the wrapped handler zero times, not once: the
bound `ClickCommand`'s shape check rejects the dict. -/
theorem C1_counterexample :
    (Publisher.empty.register (Val.widget 0, 7, "click")).dispatch
        (Val.record (Val.widget 0) "click") = .ok [] ∧
    ([] : List (Nat × Val)) ≠ [(7, Val.record (Val.widget 0) "click")] := by
  exact ⟨by decide, by decide⟩

/-- C1 (amended): after `register(source, handler, kind)`, dispatching a
matching event — the bare source value when `kind` is "click", a structured
record with owner = source and type = kind for any other kind — invokes the
wrapped handler exactly once, with the original event as its argument. -/
theorem C1_amended (p : Publisher) (src : Val) (handler : Nat) (kind : String) (ev : Val)
    (hw : src.isWidget = true) (hm : matchingEvent src kind ev) :
    (p.register (src, handler, kind)).dispatch ev = .ok [(handler, ev)] :=
  register_dispatch_matching p src handler kind ev hw hm

theorem C1_amended_witness :
    (Val.widget 3).isWidget = true ∧
    matchingEvent (Val.widget 3) "click" (Val.widget 3) ∧
    (Publisher.empty.register (Val.widget 3, 5, "click")).dispatch (Val.widget 3) =
      .ok [(5, Val.widget 3)] :=
  ⟨by decide, by decide,
    C1_amended Publisher.empty (Val.widget 3) 5 "click" (Val.widget 3)
      (by decide) (by decide)⟩

/-- C2: dispatching an event whose key — `(owner, type)` for a record,
`(event, "click")` for a bare event — has no binding raises `KeyError`,
propagated to the caller; `unregister` on an unbound key raises `KeyError`;
and after a successful `unregister(source, kind)`, dispatching the same key
raises `KeyError`. -/
theorem C2 (p : Publisher) (src srcAbs : Val) (kind kindAbs : String) (h hAbs : Nat)
    (ev evAbs : Val) (cmd : Command)
    (hk : dispatchKey ev = (src, kind)) (hkAbs : dispatchKey evAbs = (srcAbs, kindAbs))
    (habsent : p.lookupKey (srcAbs, kindAbs) = none)
    (hpresent : p.lookupKey (src, kind) = some cmd) :
    p.dispatch evAbs = .error .keyNotFound ∧
    p.unregister (srcAbs, hAbs, kindAbs) = .error .keyNotFound ∧
    ∃ p', p.unregister (src, h, kind) = .ok p' ∧ p'.dispatch ev = .error .keyNotFound := by
  refine ⟨?_, ?_, ?_⟩
  · rw [Publisher.dispatch, hkAbs, habsent]
  · rw [Publisher.unregister]
    simp only []
    rw [alistPop, if_neg]
    rw [Bool.not_eq_true]
    exact (alistGet_none_iff _ _).mp habsent
  · refine ⟨⟨p.observers.filter (fun e => decide (e.1 ≠ (src, kind)))⟩, ?_, ?_⟩
    · rw [Publisher.unregister]
      simp only []
      rw [alistPop, if_pos (alistGet_some_any _ _ _ hpresent)]
    · rw [Publisher.dispatch, hk, Publisher.lookupKey]
      rw [alistGet_filter_self]

theorem C2_witness :
    (Publisher.mk [((Val.widget 0, "notify"), Command.notify 4)]).dispatch
        (Val.widget 1) = .error .keyNotFound ∧
    (Publisher.mk [((Val.widget 0, "notify"), Command.notify 4)]).unregister
        (Val.widget 1, 9, "click") = .error .keyNotFound ∧
    ∃ p', (Publisher.mk [((Val.widget 0, "notify"), Command.notify 4)]).unregister
        (Val.widget 0, 8, "notify") = .ok p' ∧
      p'.dispatch (Val.record (Val.widget 0) "notify") = .error .keyNotFound :=
  C2 (Publisher.mk [((Val.widget 0, "notify"), Command.notify 4)])
    (Val.widget 0) (Val.widget 1) "notify" "click" 8 9
    (Val.record (Val.widget 0) "notify") (Val.widget 1) (Command.notify 4)
    (by decide) (by decide) (by decide) (by decide)

/-- C3: a `ClickCommand` invoked with a non-widget value, and a
`NotifyCommand` invoked with a non-dict value, are silent no-ops: the
wrapped handler is never called and no error is raised (`Command.call` is
total and performs no invocation). -/
theorem C3 (handler : Nat) (v w : Val) (hv : v.isWidget = false)
    (hw : w.isRecord = false) :
    (Command.click handler).call v = [] ∧ (Command.notify handler).call w = [] := by
  rw [Command.call, Command.call, hv, hw]
  exact ⟨rfl, rfl⟩

theorem C3_witness :
    (Val.str "text").isWidget = false ∧ (Val.widget 2).isRecord = false ∧
    (Command.click 6).call (Val.str "text") = [] ∧
    (Command.notify 6).call (Val.widget 2) = [] :=
  ⟨by decide, by decide, C3 6 (Val.str "text") (Val.widget 2) (by decide) (by decide)⟩

/-- C8: `register` never fails (it is a total function); registering at an
already-bound `(source, kind)` key silently overwrites the binding, the
observers mapping never holds duplicate keys, and after registering two
handlers at the same key a matching dispatch invokes only the
last-registered handler. -/
theorem C8 (p : Publisher) (src : Val) (h1 h2 : Nat) (kind : String) (ev : Val)
    (hw : src.isWidget = true) (hm : matchingEvent src kind ev)
    (hnd : p.nodupKeys) :
    ((p.register (src, h1, kind)).register (src, h2, kind)).nodupKeys ∧
    ((p.register (src, h1, kind)).register (src, h2, kind)).lookupKey (src, kind) =
      some (CommandFactory.construct kind h2) ∧
    ((p.register (src, h1, kind)).register (src, h2, kind)).dispatch ev =
      .ok [(h2, ev)] := by
  refine ⟨?_, ?_, ?_⟩
  · exact nodupKeys_alistUpd _ _ _ (nodupKeys_alistUpd _ _ _ hnd)
  · exact alistGet_upd_self _ _ _
  · exact register_dispatch_matching _ src h2 kind ev hw hm

theorem C8_witness :
    (Val.widget 1).isWidget = true ∧
    matchingEvent (Val.widget 1) "notify" (Val.record (Val.widget 1) "notify") ∧
    Publisher.empty.nodupKeys ∧
    ((Publisher.empty.register (Val.widget 1, 10, "notify")).register
        (Val.widget 1, 11, "notify")).nodupKeys ∧
    ((Publisher.empty.register (Val.widget 1, 10, "notify")).register
        (Val.widget 1, 11, "notify")).lookupKey (Val.widget 1, "notify") =
      some (CommandFactory.construct "notify" 11) ∧
    ((Publisher.empty.register (Val.widget 1, 10, "notify")).register
        (Val.widget 1, 11, "notify")).dispatch (Val.record (Val.widget 1) "notify") =
      .ok [(11, Val.record (Val.widget 1) "notify")] := by
  refine ⟨by decide, by decide, by decide, ?_⟩
  exact C8 Publisher.empty (Val.widget 1) 10 11 "notify"
    (Val.record (Val.widget 1) "notify") (by decide) (by decide) (by decide)

/-- C10: `unregister` ignores the handler component of its argument —
removal is keyed only by `(source, kind)` — so after registering a handler
at `(source, kind)`, unregistering with any (possibly different) handler
succeeds and removes the binding at that key. -/
theorem C10 (p q : Publisher) (src : Val) (h1 h2 h3 : Nat) (kind : String) :
    q.unregister (src, h2, kind) = q.unregister (src, h3, kind) ∧
    ∃ p', (p.register (src, h1, kind)).unregister (src, h2, kind) = .ok p' ∧
      p'.lookupKey (src, kind) = none := by
  refine ⟨rfl, ?_⟩
  refine ⟨⟨(p.register (src, h1, kind)).observers.filter
    (fun e => decide (e.1 ≠ (src, kind)))⟩, ?_, ?_⟩
  · rw [Publisher.unregister]
    simp only [Publisher.register]
    rw [alistPop, if_pos (alistGet_some_any _ _ _ (alistGet_upd_self p.observers _ _))]
  · exact alistGet_filter_self _ _

/-- C5: loading with empty (or absent, i.e. falsy) content returns an empty
table — `some` of an empty `DataFrame`, never `none` — without the content
ever being parsed (the format branch is not reached). -/
theorem C5 (content : Content) (metadata : FileMeta) (hc : content.isEmpty = true) :
    FileManager.load_data content metadata = .ok (some ⟨[]⟩) := by
  rw [FileManager.load_data, if_pos hc]

theorem C5_witness :
    (Content.raw []).isEmpty = true ∧
    FileManager.load_data (Content.raw []) ⟨"text/csv".toList⟩ = .ok (some ⟨[]⟩) :=
  ⟨by decide, C5 (Content.raw []) ⟨"text/csv".toList⟩ (by decide)⟩

/-- C6: with non-empty content and a metadata type string whose substring
after the final '/' is not a recognized format, `load_data` returns `None`
(`.ok none`): a silent decline, not a raised error. -/
theorem C6 (content : Content) (metadata : FileMeta) (hc : content.isEmpty = false)
    (hm : afterLastSlash metadata.mtype ∉ FileManager.ALLOWED_FILE_TYPES) :
    FileManager.load_data content metadata = .ok none := by
  rw [FileManager.load_data, if_neg (by simp [hc]), if_neg hm]

theorem C6_witness :
    (Content.raw "imagebytes".toList).isEmpty = false ∧
    afterLastSlash ("image/png".toList) ∉ FileManager.ALLOWED_FILE_TYPES ∧
    FileManager.load_data (Content.raw "imagebytes".toList) ⟨"image/png".toList⟩ =
      .ok none :=
  ⟨by decide, by decide,
    C6 (Content.raw "imagebytes".toList) ⟨"image/png".toList⟩ (by decide) (by decide)⟩

/-- C7 (counterexample): for `filepath = "out.json/"` the substring after
the final '.' is "json/", which is not a recognized format, yet `save_data`
does create a file: `Path("out.json/")` drops the trailing slash, so its
suffix is ".json" and the JSON branch runs. -/
theorem C7_counterexample :
    afterLastDot "out.json/".toList = some "json/".toList ∧
    "json/".toList ∉ FileManager.ALLOWED_FILE_TYPES ∧
    (FileManager.save_data ⟨[]⟩ "out.json/".toList FS.empty).snd.read
        "out.json/".toList = some (Content.ser Fmt.json ⟨[]⟩) ∧
    (FileManager.save_data ⟨[]⟩ "out.json/".toList FS.empty).snd ≠ FS.empty := by
  exact ⟨by decide, by decide, by decide, by decide⟩

/-- C7 (amended): for every filepath whose pathlib suffix — the extension
of the final path component, with trailing slashes and "." components
dropped — is not a recognized format, `save_data` returns `None`, raises
no error, and leaves the file system unchanged. -/
theorem C7_amended (t : Table) (filepath : List Char) (fs : FS)
    (hext : pathExt filepath ∉ FileManager.ALLOWED_FILE_TYPES) :
    FileManager.save_data t filepath fs = (none, fs) := by
  rw [FileManager.save_data, if_neg hext]

theorem C7_amended_witness :
    pathExt "out.xyz".toList ∉ FileManager.ALLOWED_FILE_TYPES ∧
    FileManager.save_data ⟨[("a", ["1"])]⟩ "out.xyz".toList FS.empty =
      (none, FS.empty) :=
  ⟨by decide, C7_amended ⟨[("a", ["1"])]⟩ "out.xyz".toList FS.empty (by decide)⟩

/-- C4 (counterexample): saving a table to "out.json" does write the JSON
file, but the call returns `None`, not the written file path:
`DataFrame.to_json(filepath)` (and `to_csv(filepath, ...)`) return `None`
when given a path, and `save_data` returns that result unchanged. -/
theorem C4_counterexample :
    (FileManager.save_data ⟨[("a", ["1"])]⟩ "out.json".toList FS.empty).fst = none ∧
    (FileManager.save_data ⟨[("a", ["1"])]⟩ "out.json".toList FS.empty).snd.read
        "out.json".toList = some (Content.ser Fmt.json ⟨[("a", ["1"])]⟩) ∧
    (none : Option (List Char)) ≠ some "out.json".toList := by
  exact ⟨by decide, by decide, by decide⟩

/-- With a recognized suffix, `save_data` runs the downloader: it creates
the parent directory and writes the serialized table at the filepath,
returning the `None` produced by the pandas writer. -/
theorem save_writes (t : Table) (filepath : List Char) (fs : FS) (fmt : Fmt)
    (hext : pathExt filepath ∈ FileManager.ALLOWED_FILE_TYPES)
    (hfmt : fmt = if pathExt filepath = "json".toList then Fmt.json else Fmt.csv) :
    FileManager.save_data t filepath fs =
      (none, (fs.mkdirParent filepath).write filepath (Content.ser fmt t)) := by
  rcases List.mem_cons.mp hext with hj | hc
  · rw [FileManager.save_data, if_pos hext]
    simp only [FileManager.fileDownloader]
    rw [if_pos hj, pdToJson, hfmt, hj, if_pos rfl]
  · have hc' : pathExt filepath = "csv".toList := by simpa using hc
    have hne : pathExt filepath ≠ "json".toList := by
      rw [hc']
      decide
    rw [FileManager.save_data, if_pos hext]
    simp only [FileManager.fileDownloader]
    rw [if_neg hne, pdToCsv, hfmt, if_neg hne]

/-- Loading serializer output tagged JSON under a JSON MIME type returns
the serialized table. -/
theorem load_ser_json (t : Table) (m : FileMeta)
    (hm : afterLastSlash m.mtype = "json".toList) :
    FileManager.load_data (Content.ser Fmt.json t) m = .ok (some t) := by
  rw [FileManager.load_data, hm]
  simp [Content.isEmpty, FileManager.fileUploader, pdReadJson, Except.map,
    FileManager.ALLOWED_FILE_TYPES]

/-- C4 (amended): for every table and filepath whose pathlib suffix is a
recognized format, `save_data` writes the table in that format (JSON, or
delimiter-separated text with a header row and no row-index column) at the
filepath, and returns `None` — not the written file path. -/
theorem C4_amended (t : Table) (filepath : List Char) (fs : FS)
    (hext : pathExt filepath ∈ FileManager.ALLOWED_FILE_TYPES) :
    (FileManager.save_data t filepath fs).fst = none ∧
    (FileManager.save_data t filepath fs).snd.read filepath =
      some (Content.ser (if pathExt filepath = "json".toList then Fmt.json else Fmt.csv)
        t) := by
  rw [save_writes t filepath fs _ hext rfl]
  exact ⟨rfl, alistGet_upd_self _ _ _⟩

theorem C4_amended_witness :
    pathExt "d/out.csv".toList ∈ FileManager.ALLOWED_FILE_TYPES ∧
    ((FileManager.save_data ⟨[("a", ["1"])]⟩ "d/out.csv".toList FS.empty).fst = none ∧
      (FileManager.save_data ⟨[("a", ["1"])]⟩ "d/out.csv".toList FS.empty).snd.read
          "d/out.csv".toList =
        some (Content.ser
          (if pathExt "d/out.csv".toList = "json".toList then Fmt.json else Fmt.csv)
          ⟨[("a", ["1"])]⟩)) :=
  ⟨by decide, C4_amended ⟨[("a", ["1"])]⟩ "d/out.csv".toList FS.empty (by decide)⟩

/-- C9: any table obtained by loading JSON content can be saved to
"out.json" and loaded back from the written file, yielding a table equal
to the original (round-trip; the pandas serializer pair is modelled as
exact inverses). -/
theorem C9 (c : Content) (t : Table) (fs : FS)
    (_hload : FileManager.load_data c ⟨"application/json".toList⟩ = .ok (some t)) :
    ∃ cw, (FileManager.save_data t "out.json".toList fs).snd.read "out.json".toList =
        some cw ∧
      FileManager.load_data cw ⟨"application/json".toList⟩ = .ok (some t) := by
  have hmem : pathExt "out.json".toList ∈ FileManager.ALLOWED_FILE_TYPES := by decide
  refine ⟨Content.ser Fmt.json t, ?_, ?_⟩
  · rw [save_writes t "out.json".toList fs Fmt.json hmem (by decide)]
    exact alistGet_upd_self _ _ _
  · exact load_ser_json t ⟨"application/json".toList⟩ (by decide)

theorem C9_witness :
    FileManager.load_data (Content.ser Fmt.json ⟨[("a", ["1"])]⟩)
        ⟨"application/json".toList⟩ = .ok (some ⟨[("a", ["1"])]⟩) ∧
    ∃ cw, (FileManager.save_data ⟨[("a", ["1"])]⟩ "out.json".toList
          FS.empty).snd.read "out.json".toList = some cw ∧
      FileManager.load_data cw ⟨"application/json".toList⟩ =
        .ok (some ⟨[("a", ["1"])]⟩) :=
  ⟨by decide,
    C9 (Content.ser Fmt.json ⟨[("a", ["1"])]⟩) ⟨[("a", ["1"])]⟩ FS.empty (by decide)⟩
